import Mathlib

/-!
Verification of `BasicBot.validate_order_params` (src/bot.py).

A shallow embedding of the order-parameter validator of the trading bot
(`src/bot.py`, `BasicBot.validate_order_params`, lines 96-146), together with
proofs and refutations of the specification's claims about it.

Modelling choices:
* Python floats (quantity, prices) are embedded as rationals `ℚ`; the
  validator only compares them, so the ordered-field structure is all that
  is used.
* Python `None`-able parameters (`price`, `stop_price`) are `Option ℚ`.
* `self.get_current_price(symbol)` catches every exception internally and
  returns either a float or `None`; it is embedded as an injected lookup
  function `String → Option ℚ`.
* Python's `str.upper()` is embedded as `pyUpper`, ASCII uppercasing of
  every character (`Char.toUpper` over the string's characters).
* A Python comparison between `None` and a number raises `TypeError`; such
  comparisons are embedded in `Except String` so that the embedding can
  express whether an exception escapes the validator.  The float renderings
  inside failure messages (`f"{stop_price}"`, `f"{current_price:.2f}"`) are
  abstracted by `pyStr` (exact decimal formatting is not load-bearing for
  any claim).
* Python's `if current_price:` truthiness test on a float is false exactly
  for `None` and `0.0`; it is embedded as a match on the option plus a
  comparison with `0`.
-/

/-- ASCII uppercasing of a string, the embedding of Python's `str.upper()`
(`side.upper()`, `order_type.upper()` in `validate_order_params`). -/
def pyUpper (s : String) : String :=
  ⟨s.data.map Char.toUpper⟩

/-- Embedding of the Python test `x is None or x <= 0` used for
`price` and `stop_price` (short-circuit protects the comparison,
so it can never raise). -/
def isNoneOrNonpos : Option ℚ → Bool
  | none => true
  | some p => decide (p ≤ 0)

/-- Rendering of an optional float inside an f-string
(decimal formatting abstracted). -/
def pyStr : Option ℚ → String
  | none => "None"
  | some p => toString p

/-- Python comparison `a <= b` on possibly-`None` operands:
raises `TypeError` when an operand is `None`. -/
def pyLE : Option ℚ → Option ℚ → Except String Bool
  | some a, some b => .ok (decide (a ≤ b))
  | _, _ => .error "TypeError"

/-- Python comparison `a >= b` on possibly-`None` operands. -/
def pyGE : Option ℚ → Option ℚ → Except String Bool
  | some a, some b => .ok (decide (b ≤ a))
  | _, _ => .error "TypeError"

/-- Python comparison `a > b` on possibly-`None` operands. -/
def pyGT : Option ℚ → Option ℚ → Except String Bool
  | some a, some b => .ok (decide (b < a))
  | _, _ => .error "TypeError"

/-- Python comparison `a < b` on possibly-`None` operands. -/
def pyLT : Option ℚ → Option ℚ → Except String Bool
  | some a, some b => .ok (decide (a < b))
  | _, _ => .error "TypeError"

/-- The recognized order types (`valid_types` in `validate_order_params`). -/
def valid_types : List String :=
  ["MARKET", "LIMIT", "STOP_LIMIT", "STOP_MARKET"]

/-- Shallow embedding of `BasicBot.validate_order_params`
(src/bot.py lines 96-146).  The result is `.ok (is_valid, error_message)`
mirroring the Python `(bool, str)` return value, or `.error e` if an
exception would escape the Python function.  `lookup` embeds
`self.get_current_price`. -/
def validate_order_params (lookup : String → Option ℚ)
    (symbol side order_type : String) (quantity : ℚ)
    (price stop_price : Option ℚ) : Except String (Bool × String) :=
  if pyUpper side ∉ (["BUY", "SELL"] : List String) then
    .ok (false, "Side must be \x27BUY\x27 or \x27SELL\x27")
  else if pyUpper order_type ∉ valid_types then
    .ok (false, "Order type must be one of [\x27MARKET\x27, \x27LIMIT\x27, \x27STOP_LIMIT\x27, \x27STOP_MARKET\x27]")
  else if quantity ≤ 0 then
    .ok (false, "Quantity must be greater than 0")
  else if pyUpper order_type ∈ (["LIMIT", "STOP_LIMIT"] : List String)
      ∧ isNoneOrNonpos price = true then
    .ok (false, order_type ++ " orders require a valid price")
  else if pyUpper order_type ∈ (["STOP_LIMIT", "STOP_MARKET"] : List String) then
    if isNoneOrNonpos stop_price = true then
      .ok (false, order_type ++ " orders require a valid stop price")
    else
      match lookup symbol with
      | none => .ok (true, "")
      | some current_price =>
        if current_price = 0 then
          .ok (true, "")
        else if pyUpper side = "BUY" then
          match pyLE stop_price (some current_price) with
          | .error e => .error e
          | .ok true =>
            .ok (false, "For BUY STOP orders, stop price (" ++ pyStr stop_price
              ++ ") must be ABOVE current market price ("
              ++ pyStr (some current_price)
              ++ "). Stop orders trigger when price RISES to your stop price.")
          | .ok false =>
            if pyUpper order_type = "STOP_LIMIT" then
              match pyGT price stop_price with
              | .error e => .error e
              | .ok true =>
                .ok (false, "For BUY STOP_LIMIT, limit price (" ++ pyStr price
                  ++ ") should be <= stop price (" ++ pyStr stop_price
                  ++ "). Limit price is where you want to buy after stop triggers.")
              | .ok false => .ok (true, "")
            else
              .ok (true, "")
        else
          match pyGE stop_price (some current_price) with
          | .error e => .error e
          | .ok true =>
            .ok (false, "For SELL STOP orders, stop price (" ++ pyStr stop_price
              ++ ") must be BELOW current market price ("
              ++ pyStr (some current_price)
              ++ "). Stop orders trigger when price FALLS to your stop price.")
          | .ok false =>
            if pyUpper order_type = "STOP_LIMIT" then
              match pyLT price stop_price with
              | .error e => .error e
              | .ok true =>
                .ok (false, "For SELL STOP_LIMIT, limit price (" ++ pyStr price
                  ++ ") should be >= stop price (" ++ pyStr stop_price
                  ++ "). Limit price is where you want to sell after stop triggers.")
              | .ok false => .ok (true, "")
            else
              .ok (true, "")
  else
    .ok (true, "")

/-- The accept/reject verdict of a validator result: `true` exactly on a
normal return whose first component is `True`. -/
def verdict : Except String (Bool × String) → Bool
  | .ok (b, _) => b
  | .error _ => false

/-- A price lookup that always answers 48000 (the current price used by the
spec's scenarios A-D). -/
def lookup48000 : String → Option ℚ :=
  fun _ => some 48000

/-- A price lookup that always fails (`get_current_price` returned `None`). -/
def lookupFail : String → Option ℚ :=
  fun _ => none

/-- Decoding `Char.ofNat` of a valid codepoint gives back the same `Nat`. -/
theorem toNat_ofNat_valid (n : Nat) (h : n.isValidChar) :
    (Char.ofNat n).toNat = n := by
  unfold Char.ofNat
  rw [dif_pos h]
  rfl

/-- Unfolding characterization of `Char.toUpper`. -/
theorem char_toUpper_eq (c : Char) :
    c.toUpper
      = if c.toNat ≥ 97 ∧ c.toNat ≤ 122 then Char.ofNat (c.toNat - 32) else c :=
  rfl

/-- ASCII uppercasing of a character is idempotent. -/
theorem char_toUpper_idem (c : Char) : c.toUpper.toUpper = c.toUpper := by
  rw [char_toUpper_eq c]
  by_cases h : c.toNat ≥ 97 ∧ c.toNat ≤ 122
  · rw [if_pos h, char_toUpper_eq,
      toNat_ofNat_valid _ (Or.inl (by omega)), if_neg (by omega)]
  · rw [if_neg h, char_toUpper_eq, if_neg h]

/-- ASCII uppercasing of a string is idempotent. -/
theorem pyUpper_idem (s : String) : pyUpper (pyUpper s) = pyUpper s := by
  show String.mk ((s.data.map Char.toUpper).map Char.toUpper)
      = String.mk (s.data.map Char.toUpper)
  rw [List.map_map]
  have hf : Char.toUpper ∘ Char.toUpper = Char.toUpper := funext char_toUpper_idem
  rw [hf]

/-- A string whose right append component is non-empty is non-empty. -/
theorem append_right_ne_empty (s t : String) (h : t.data ≠ []) : s ++ t ≠ "" := by
  intro hc
  have hd := congrArg String.data hc
  simp at hd
  exact h hd.2

/-- The well-formedness property every result of the validator satisfies:
a normal return, and the verdict is `True` exactly when the message is
empty. -/
def okShape (r : Except String (Bool × String)) : Prop :=
  r = .ok (true, "") ∨ ∃ m, r = .ok (false, m) ∧ m ≠ ""

/-- Master case analysis: every run of the validator returns normally, with
`(True, "")` or with `False` and a non-empty message. -/
theorem validate_order_params_okShape (lookup : String → Option ℚ)
    (symbol side order_type : String) (quantity : ℚ)
    (price stop_price : Option ℚ) :
    okShape (validate_order_params lookup symbol side order_type quantity
      price stop_price) := by
  rw [validate_order_params]
  by_cases h1 : pyUpper side ∉ (["BUY", "SELL"] : List String)
  · rw [if_pos h1]; exact .inr ⟨_, rfl, by decide⟩
  rw [if_neg h1]
  by_cases h2 : pyUpper order_type ∉ valid_types
  · rw [if_pos h2]; exact .inr ⟨_, rfl, by decide⟩
  rw [if_neg h2]
  by_cases h3 : quantity ≤ 0
  · rw [if_pos h3]; exact .inr ⟨_, rfl, by decide⟩
  rw [if_neg h3]
  by_cases h4 : pyUpper order_type ∈ (["LIMIT", "STOP_LIMIT"] : List String)
      ∧ isNoneOrNonpos price = true
  · rw [if_pos h4]; exact .inr ⟨_, rfl, append_right_ne_empty _ _ (by decide)⟩
  rw [if_neg h4]
  by_cases h5 : pyUpper order_type ∈ (["STOP_LIMIT", "STOP_MARKET"] : List String)
  case neg => rw [if_neg h5]; exact .inl rfl
  rw [if_pos h5]
  by_cases h6 : isNoneOrNonpos stop_price = true
  · rw [if_pos h6]; exact .inr ⟨_, rfl, append_right_ne_empty _ _ (by decide)⟩
  rw [if_neg h6]
  obtain ⟨sp, rfl⟩ : ∃ sp, stop_price = some sp := by
    cases stop_price
    · exact absurd rfl h6
    · exact ⟨_, rfl⟩
  split
  · exact .inl rfl
  rename_i current_price hlk
  by_cases h7 : current_price = 0
  · rw [if_pos h7]; exact .inl rfl
  rw [if_neg h7]
  by_cases h8 : pyUpper side = "BUY"
  · rw [if_pos h8]
    simp only [pyLE]
    by_cases h9 : sp ≤ current_price
    · rw [decide_eq_true h9]
      exact .inr ⟨_, rfl, append_right_ne_empty _ _ (by decide)⟩
    rw [decide_eq_false h9]
    by_cases h10 : pyUpper order_type = "STOP_LIMIT"
    case neg => rw [if_neg h10]; exact .inl rfl
    rw [if_pos h10]
    obtain ⟨p, rfl⟩ : ∃ p, price = some p := by
      cases price
      · exact absurd ⟨by rw [h10]; decide, rfl⟩ h4
      · exact ⟨_, rfl⟩
    simp only [pyGT]
    by_cases h11 : sp < p
    · rw [decide_eq_true h11]
      exact .inr ⟨_, rfl, append_right_ne_empty _ _ (by decide)⟩
    · rw [decide_eq_false h11]; exact .inl rfl
  · rw [if_neg h8]
    simp only [pyGE]
    by_cases h9 : current_price ≤ sp
    · rw [decide_eq_true h9]
      exact .inr ⟨_, rfl, append_right_ne_empty _ _ (by decide)⟩
    rw [decide_eq_false h9]
    by_cases h10 : pyUpper order_type = "STOP_LIMIT"
    case neg => rw [if_neg h10]; exact .inl rfl
    rw [if_pos h10]
    obtain ⟨p, rfl⟩ : ∃ p, price = some p := by
      cases price
      · exact absurd ⟨by rw [h10]; decide, rfl⟩ h4
      · exact ⟨_, rfl⟩
    simp only [pyLT]
    by_cases h11 : p < sp
    · rw [decide_eq_true h11]
      exact .inr ⟨_, rfl, append_right_ne_empty _ _ (by decide)⟩
    · rw [decide_eq_false h11]; exact .inl rfl

/-- C8: on every input in the declared domain the validator terminates
normally with a `(bool, message)` pair; no exception escapes it (in the
embedding: the result is always `.ok`, never `.error`). -/
theorem validate_order_params_total (lookup : String → Option ℚ)
    (symbol side order_type : String) (quantity : ℚ)
    (price stop_price : Option ℚ) :
    ∃ b m, validate_order_params lookup symbol side order_type quantity
      price stop_price = .ok (b, m) := by
  rcases validate_order_params_okShape lookup symbol side order_type quantity
      price stop_price with h | ⟨m, h, _⟩
  · exact ⟨true, "", h⟩
  · exact ⟨false, m, h⟩

/-- C10: the boolean component of the validator's result is `True` exactly
when the accompanying message is empty: acceptance is `(True, "")` and
every rejection carries a non-empty reason. -/
theorem validate_order_params_verdict_iff_empty (lookup : String → Option ℚ)
    (symbol side order_type : String) (quantity : ℚ)
    (price stop_price : Option ℚ) :
    ∃ b m, validate_order_params lookup symbol side order_type quantity
      price stop_price = .ok (b, m) ∧ (b = true ↔ m = "") := by
  rcases validate_order_params_okShape lookup symbol side order_type quantity
      price stop_price with h | ⟨m, h, hm⟩
  · exact ⟨true, "", h, by simp⟩
  · exact ⟨false, m, h, by simp [hm]⟩

/-- C5: a non-positive quantity makes the validator return `Invalid`,
whatever the other fields and the price lookup are. -/
theorem quantity_nonpos_invalid (lookup : String → Option ℚ)
    (symbol side order_type : String) (quantity : ℚ)
    (price stop_price : Option ℚ) (hq : quantity ≤ 0) :
    ∃ m, validate_order_params lookup symbol side order_type quantity
      price stop_price = .ok (false, m) := by
  rw [validate_order_params]
  by_cases h1 : pyUpper side ∉ (["BUY", "SELL"] : List String)
  · rw [if_pos h1]; exact ⟨_, rfl⟩
  rw [if_neg h1]
  by_cases h2 : pyUpper order_type ∉ valid_types
  · rw [if_pos h2]; exact ⟨_, rfl⟩
  rw [if_neg h2, if_pos hq]
  exact ⟨_, rfl⟩

/-- C5 witness: quantity `0` on a MARKET order is rejected. -/
theorem quantity_nonpos_invalid_witness :
    ∃ m, validate_order_params lookup48000 "BTCUSDT" "BUY" "MARKET" 0 none none
      = .ok (false, m) :=
  quantity_nonpos_invalid lookup48000 "BTCUSDT" "BUY" "MARKET" 0 none none
    (by decide)

/-- C6: a LIMIT or STOP_LIMIT order whose limit price is absent or
non-positive, and a STOP_LIMIT or STOP_MARKET order whose stop price is
absent or non-positive, are rejected, regardless of the price lookup. -/
theorem required_price_missing_invalid (lookup : String → Option ℚ)
    (symbol side order_type : String) (quantity : ℚ)
    (price stop_price : Option ℚ)
    (h : (pyUpper order_type ∈ (["LIMIT", "STOP_LIMIT"] : List String)
            ∧ isNoneOrNonpos price = true)
       ∨ (pyUpper order_type ∈ (["STOP_LIMIT", "STOP_MARKET"] : List String)
            ∧ isNoneOrNonpos stop_price = true)) :
    ∃ m, validate_order_params lookup symbol side order_type quantity
      price stop_price = .ok (false, m) := by
  rw [validate_order_params]
  by_cases h1 : pyUpper side ∉ (["BUY", "SELL"] : List String)
  · rw [if_pos h1]; exact ⟨_, rfl⟩
  rw [if_neg h1]
  by_cases h2 : pyUpper order_type ∉ valid_types
  · rw [if_pos h2]; exact ⟨_, rfl⟩
  rw [if_neg h2]
  by_cases h3 : quantity ≤ 0
  · rw [if_pos h3]; exact ⟨_, rfl⟩
  rw [if_neg h3]
  by_cases h4 : pyUpper order_type ∈ (["LIMIT", "STOP_LIMIT"] : List String)
      ∧ isNoneOrNonpos price = true
  · rw [if_pos h4]; exact ⟨_, rfl⟩
  rw [if_neg h4]
  rcases h with h | ⟨hmem, hbad⟩
  · exact absurd h h4
  rw [if_pos hmem, if_pos hbad]
  exact ⟨_, rfl⟩

/-- C6 witness: a LIMIT order without a limit price is rejected. -/
theorem required_price_missing_invalid_witness :
    ∃ m, validate_order_params lookup48000 "BTCUSDT" "SELL" "LIMIT" 1 none none
      = .ok (false, m) :=
  required_price_missing_invalid lookup48000 "BTCUSDT" "SELL" "LIMIT" 1 none none
    (Or.inl ⟨by decide, rfl⟩)

/-- C7: the side check fires first, with its fixed message, regardless of
every other field; with a valid side, an unrecognized type fires next with
the type-check message, regardless of the remaining fields. -/
theorem checks_order_side_then_type (lookup : String → Option ℚ)
    (symbol side order_type : String) (quantity : ℚ)
    (price stop_price : Option ℚ) :
    (pyUpper side ∉ (["BUY", "SELL"] : List String) →
      validate_order_params lookup symbol side order_type quantity price
        stop_price = .ok (false, "Side must be \x27BUY\x27 or \x27SELL\x27")) ∧
    (pyUpper side ∈ (["BUY", "SELL"] : List String) →
      pyUpper order_type ∉ valid_types →
      validate_order_params lookup symbol side order_type quantity price
        stop_price = .ok (false,
          "Order type must be one of [\x27MARKET\x27, \x27LIMIT\x27, \x27STOP_LIMIT\x27, \x27STOP_MARKET\x27]")) := by
  constructor
  · intro h
    rw [validate_order_params, if_pos h]
  · intro hs ht
    rw [validate_order_params, if_neg (not_not_intro hs), if_pos ht]

/-- C7 witness: a bad side is reported with the side message even with an
unrecognized type and bad quantity; a good side with an unrecognized type
is reported with the type message even with a bad quantity. -/
theorem checks_order_side_then_type_witness :
    validate_order_params lookup48000 "BTCUSDT" "HOLD" "FOO" (-5) none none
        = .ok (false, "Side must be \x27BUY\x27 or \x27SELL\x27") ∧
    validate_order_params lookup48000 "BTCUSDT" "buy" "LIMIT_MAKER" (-5) none none
        = .ok (false,
          "Order type must be one of [\x27MARKET\x27, \x27LIMIT\x27, \x27STOP_LIMIT\x27, \x27STOP_MARKET\x27]") :=
  ⟨(checks_order_side_then_type lookup48000 "BTCUSDT" "HOLD" "FOO" (-5) none
      none).1 (by decide),
   (checks_order_side_then_type lookup48000 "BTCUSDT" "buy" "LIMIT_MAKER" (-5)
      none none).2 (by decide) (by decide)⟩

/-- C4: when the price lookup fails, every directional check is skipped and
a stop order passing the structural checks is accepted, whatever its limit
and stop prices. -/
theorem lookup_failure_skips_directional (lookup : String → Option ℚ)
    (symbol side order_type : String) (quantity : ℚ)
    (price stop_price : Option ℚ)
    (hs : pyUpper side ∈ (["BUY", "SELL"] : List String))
    (ht : pyUpper order_type ∈ (["STOP_LIMIT", "STOP_MARKET"] : List String))
    (hq : ¬ quantity ≤ 0)
    (hp : ¬(pyUpper order_type ∈ (["LIMIT", "STOP_LIMIT"] : List String)
        ∧ isNoneOrNonpos price = true))
    (hsp : ¬ isNoneOrNonpos stop_price = true)
    (hlk : lookup symbol = none) :
    validate_order_params lookup symbol side order_type quantity price
      stop_price = .ok (true, "") := by
  have htv : pyUpper order_type ∈ valid_types := by
    simp only [List.mem_cons, List.mem_singleton, List.not_mem_nil,
      or_false] at ht
    rcases ht with h | h <;> rw [h] <;> decide
  rw [validate_order_params, if_neg (not_not_intro hs),
    if_neg (not_not_intro htv), if_neg hq, if_neg hp, if_pos ht, if_neg hsp,
    hlk]

/-- C4 witness: failed lookup, SELL STOP_MARKET with positive stop price is
accepted. -/
theorem lookup_failure_skips_directional_witness :
    validate_order_params lookupFail "BTCUSDT" "SELL" "STOP_MARKET" 1 none
      (some 45000) = .ok (true, "") :=
  lookup_failure_skips_directional lookupFail "BTCUSDT" "SELL" "STOP_MARKET" 1
    none (some 45000) (by decide) (by decide) (by decide) (by decide)
    (by decide) rfl

/-- C3: with the structural checks passing and a positive current price
from the lookup, a BUY stop order whose stop price is not strictly above
the current price, and a SELL stop order whose stop price is not strictly
below it, are rejected. -/
theorem stop_direction_inconsistent_invalid (lookup : String → Option ℚ)
    (symbol side order_type : String) (quantity : ℚ)
    (price : Option ℚ) (sp cp : ℚ)
    (hs : pyUpper side ∈ (["BUY", "SELL"] : List String))
    (ht : pyUpper order_type ∈ (["STOP_LIMIT", "STOP_MARKET"] : List String))
    (hq : ¬ quantity ≤ 0)
    (hp : ¬(pyUpper order_type ∈ (["LIMIT", "STOP_LIMIT"] : List String)
        ∧ isNoneOrNonpos price = true))
    (hsp : 0 < sp)
    (hlk : lookup symbol = some cp) (hcp : 0 < cp) :
    (pyUpper side = "BUY" → sp ≤ cp →
      ∃ m, validate_order_params lookup symbol side order_type quantity price
        (some sp) = .ok (false, m)) ∧
    (pyUpper side = "SELL" → cp ≤ sp →
      ∃ m, validate_order_params lookup symbol side order_type quantity price
        (some sp) = .ok (false, m)) := by
  have htv : pyUpper order_type ∈ valid_types := by
    simp only [List.mem_cons, List.mem_singleton, List.not_mem_nil,
      or_false] at ht
    rcases ht with h | h <;> rw [h] <;> decide
  have hspb : ¬ isNoneOrNonpos (some sp) = true := by
    simp only [isNoneOrNonpos, decide_eq_true_eq]
    exact not_le.mpr hsp
  constructor
  · intro hb hle
    rw [validate_order_params, if_neg (not_not_intro hs),
      if_neg (not_not_intro htv), if_neg hq, if_neg hp, if_pos ht,
      if_neg hspb, hlk]
    dsimp only
    rw [if_neg (ne_of_gt hcp), if_pos hb]
    simp only [pyLE]
    rw [decide_eq_true hle]
    exact ⟨_, rfl⟩
  · intro hb hge
    rw [validate_order_params, if_neg (not_not_intro hs),
      if_neg (not_not_intro htv), if_neg hq, if_neg hp, if_pos ht,
      if_neg hspb, hlk]
    dsimp only
    rw [if_neg (ne_of_gt hcp), if_neg (by rw [hb]; decide)]
    simp only [pyGE]
    rw [decide_eq_true hge]
    exact ⟨_, rfl⟩

/-- C3 witness: BUY STOP_LIMIT with stop price 47000 not above current price
48000 is rejected. -/
theorem stop_direction_inconsistent_invalid_witness :
    ∃ m, validate_order_params lookup48000 "BTCUSDT" "BUY" "STOP_LIMIT" 1
      (some 46000) (some 47000) = .ok (false, m) :=
  (stop_direction_inconsistent_invalid lookup48000 "BTCUSDT" "BUY"
    "STOP_LIMIT" 1 (some 46000) 47000 48000 (by decide) (by decide)
    (by decide) (by decide) (by decide) rfl (by decide)).1 rfl (by decide)

/-- C2: for a STOP_LIMIT order passing every earlier check, with a positive
looked-up price and a directionally consistent stop price, acceptance is
decided exactly by the limit-versus-stop comparison: BUY accepts iff
`limit ≤ stop`, SELL accepts iff `limit ≥ stop`, and the opposite strict
inequality is rejected. -/
theorem stop_limit_limit_vs_stop_rule (lookup : String → Option ℚ)
    (symbol side order_type : String) (quantity : ℚ) (p sp cp : ℚ)
    (hs : pyUpper side ∈ (["BUY", "SELL"] : List String))
    (ht : pyUpper order_type = "STOP_LIMIT")
    (hq : ¬ quantity ≤ 0)
    (hp : 0 < p) (hsp : 0 < sp)
    (hlk : lookup symbol = some cp) (hcp : 0 < cp)
    (hdir : (pyUpper side = "BUY" → cp < sp)
        ∧ (pyUpper side = "SELL" → sp < cp)) :
    (pyUpper side = "BUY" →
      (p ≤ sp → validate_order_params lookup symbol side order_type quantity
          (some p) (some sp) = .ok (true, "")) ∧
      (sp < p → ∃ m, validate_order_params lookup symbol side order_type
          quantity (some p) (some sp) = .ok (false, m))) ∧
    (pyUpper side = "SELL" →
      (sp ≤ p → validate_order_params lookup symbol side order_type quantity
          (some p) (some sp) = .ok (true, "")) ∧
      (p < sp → ∃ m, validate_order_params lookup symbol side order_type
          quantity (some p) (some sp) = .ok (false, m))) := by
  have htv : pyUpper order_type ∈ valid_types := by rw [ht]; decide
  have ht5 : pyUpper order_type
      ∈ (["STOP_LIMIT", "STOP_MARKET"] : List String) := by rw [ht]; decide
  have hpb : ¬(pyUpper order_type ∈ (["LIMIT", "STOP_LIMIT"] : List String)
      ∧ isNoneOrNonpos (some p) = true) := by
    intro hc
    rw [isNoneOrNonpos, decide_eq_true_eq] at hc
    exact not_le.mpr hp hc.2
  have hspb : ¬ isNoneOrNonpos (some sp) = true := by
    simp only [isNoneOrNonpos, decide_eq_true_eq]
    exact not_le.mpr hsp
  constructor
  · intro hb
    have hstop : ¬ sp ≤ cp := not_le.mpr (hdir.1 hb)
    constructor
    · intro hple
      rw [validate_order_params, if_neg (not_not_intro hs),
        if_neg (not_not_intro htv), if_neg hq, if_neg hpb, if_pos ht5,
        if_neg hspb, hlk]
      dsimp only
      rw [if_neg (ne_of_gt hcp), if_pos hb]
      simp only [pyLE]
      rw [decide_eq_false hstop]
      dsimp only
      rw [if_pos ht]
      simp only [pyGT]
      rw [decide_eq_false (not_lt.mpr hple)]
    · intro hpgt
      rw [validate_order_params, if_neg (not_not_intro hs),
        if_neg (not_not_intro htv), if_neg hq, if_neg hpb, if_pos ht5,
        if_neg hspb, hlk]
      dsimp only
      rw [if_neg (ne_of_gt hcp), if_pos hb]
      simp only [pyLE]
      rw [decide_eq_false hstop]
      dsimp only
      rw [if_pos ht]
      simp only [pyGT]
      rw [decide_eq_true hpgt]
      exact ⟨_, rfl⟩
  · intro hb
    have hstop : ¬ cp ≤ sp := not_le.mpr (hdir.2 hb)
    constructor
    · intro hpge
      rw [validate_order_params, if_neg (not_not_intro hs),
        if_neg (not_not_intro htv), if_neg hq, if_neg hpb, if_pos ht5,
        if_neg hspb, hlk]
      dsimp only
      rw [if_neg (ne_of_gt hcp), if_neg (by rw [hb]; decide)]
      simp only [pyGE]
      rw [decide_eq_false hstop]
      dsimp only
      rw [if_pos ht]
      simp only [pyLT]
      rw [decide_eq_false (not_lt.mpr hpge)]
    · intro hplt
      rw [validate_order_params, if_neg (not_not_intro hs),
        if_neg (not_not_intro htv), if_neg hq, if_neg hpb, if_pos ht5,
        if_neg hspb, hlk]
      dsimp only
      rw [if_neg (ne_of_gt hcp), if_neg (by rw [hb]; decide)]
      simp only [pyGE]
      rw [decide_eq_false hstop]
      dsimp only
      rw [if_pos ht]
      simp only [pyLT]
      rw [decide_eq_true hplt]
      exact ⟨_, rfl⟩

/-- C2 witness: spec scenario A (BUY STOP_LIMIT, stop 50000 above current
48000, limit 49000 ≤ stop) is accepted. -/
theorem stop_limit_limit_vs_stop_rule_witness :
    validate_order_params lookup48000 "BTCUSDT" "BUY" "STOP_LIMIT" 1
      (some 49000) (some 50000) = .ok (true, "") :=
  ((stop_limit_limit_vs_stop_rule lookup48000 "BTCUSDT" "BUY" "STOP_LIMIT" 1
      49000 50000 48000 (by decide) rfl (by decide) (by decide) (by decide)
      rfl (by decide)
      ⟨fun _ => by decide, fun h => absurd h (by decide)⟩).1 rfl).1 (by decide)

/-- C1 counterexample: the spec's Scenario C input (SELL STOP_LIMIT,
quantity 0.01, stop 45000, limit 44000, current price 48000) is NOT
accepted by the code: the limit price 44000 is below the stop price 45000,
violating the SELL STOP_LIMIT rule `limit ≥ stop`. -/
theorem scenario_c_not_valid :
    validate_order_params lookup48000 "BTCUSDT" "SELL" "STOP_LIMIT" (1/100)
      (some 44000) (some 45000) ≠ .ok (true, "") := by
  rw [validate_order_params, if_neg (by decide), if_neg (by decide),
    if_neg (by norm_num)]
  intro h
  injection h with h1
  injection h1 with hb hm
  exact Bool.noConfusion hb

/-- C1 amended: on the Scenario C input the validator returns `Invalid`
with the SELL STOP_LIMIT limit-versus-stop message (the outcome the spec's
own Scenario D note computes for this input). -/
theorem scenario_c_amended :
    validate_order_params lookup48000 "BTCUSDT" "SELL" "STOP_LIMIT" (1/100)
      (some 44000) (some 45000)
      = .ok (false, "For SELL STOP_LIMIT, limit price (44000) should be >= stop price (45000). Limit price is where you want to sell after stop triggers.") := by
  rw [validate_order_params, if_neg (by decide), if_neg (by decide),
    if_neg (by norm_num)]
  rfl

/-- The decision structure of `validate_order_params` restricted to its
verdict, on side and type strings assumed already uppercased; a factoring
device for the case-insensitivity proof. -/
def coreVerdict (lookup : String → Option ℚ) (symbol sideU typeU : String)
    (quantity : ℚ) (price stop_price : Option ℚ) : Bool :=
  if sideU ∉ (["BUY", "SELL"] : List String) then false
  else if typeU ∉ valid_types then false
  else if quantity ≤ 0 then false
  else if typeU ∈ (["LIMIT", "STOP_LIMIT"] : List String)
      ∧ isNoneOrNonpos price = true then false
  else if typeU ∈ (["STOP_LIMIT", "STOP_MARKET"] : List String) then
    if isNoneOrNonpos stop_price = true then false
    else
      match lookup symbol with
      | none => true
      | some current_price =>
        if current_price = 0 then true
        else if sideU = "BUY" then
          match pyLE stop_price (some current_price) with
          | .error _ => false
          | .ok true => false
          | .ok false =>
            if typeU = "STOP_LIMIT" then
              match pyGT price stop_price with
              | .error _ => false
              | .ok true => false
              | .ok false => true
            else true
        else
          match pyGE stop_price (some current_price) with
          | .error _ => false
          | .ok true => false
          | .ok false =>
            if typeU = "STOP_LIMIT" then
              match pyLT price stop_price with
              | .error _ => false
              | .ok true => false
              | .ok false => true
            else true
  else true

/-- The validator's verdict factors through `coreVerdict` applied to the
uppercased side and type. -/
theorem verdict_validate_eq_core (lookup : String → Option ℚ)
    (symbol side order_type : String) (quantity : ℚ)
    (price stop_price : Option ℚ) :
    verdict (validate_order_params lookup symbol side order_type quantity
        price stop_price)
      = coreVerdict lookup symbol (pyUpper side) (pyUpper order_type)
        quantity price stop_price := by
  rw [validate_order_params, coreVerdict]
  by_cases h1 : pyUpper side ∉ (["BUY", "SELL"] : List String)
  · rw [if_pos h1, if_pos h1]; rfl
  rw [if_neg h1, if_neg h1]
  by_cases h2 : pyUpper order_type ∉ valid_types
  · rw [if_pos h2, if_pos h2]; rfl
  rw [if_neg h2, if_neg h2]
  by_cases h3 : quantity ≤ 0
  · rw [if_pos h3, if_pos h3]; rfl
  rw [if_neg h3, if_neg h3]
  by_cases h4 : pyUpper order_type ∈ (["LIMIT", "STOP_LIMIT"] : List String)
      ∧ isNoneOrNonpos price = true
  · rw [if_pos h4, if_pos h4]; rfl
  rw [if_neg h4, if_neg h4]
  by_cases h5 : pyUpper order_type ∈ (["STOP_LIMIT", "STOP_MARKET"] : List String)
  case neg => rw [if_neg h5, if_neg h5]; rfl
  rw [if_pos h5, if_pos h5]
  by_cases h6 : isNoneOrNonpos stop_price = true
  · rw [if_pos h6, if_pos h6]; rfl
  rw [if_neg h6, if_neg h6]
  obtain ⟨sp, rfl⟩ : ∃ sp, stop_price = some sp := by
    cases stop_price
    · exact absurd rfl h6
    · exact ⟨_, rfl⟩
  cases hlk : lookup symbol with
  | none => rfl
  | some current_price =>
    dsimp only
    by_cases h7 : current_price = 0
    · rw [if_pos h7, if_pos h7]; rfl
    rw [if_neg h7, if_neg h7]
    by_cases h8 : pyUpper side = "BUY"
    · rw [if_pos h8, if_pos h8]
      simp only [pyLE]
      by_cases h9 : sp ≤ current_price
      · rw [decide_eq_true h9]; rfl
      rw [decide_eq_false h9]
      dsimp only
      by_cases h10 : pyUpper order_type = "STOP_LIMIT"
      case neg => rw [if_neg h10, if_neg h10]; rfl
      rw [if_pos h10, if_pos h10]
      obtain ⟨p, rfl⟩ : ∃ p, price = some p := by
        cases price
        · exact absurd ⟨by rw [h10]; decide, rfl⟩ h4
        · exact ⟨_, rfl⟩
      simp only [pyGT]
      by_cases h11 : sp < p
      · rw [decide_eq_true h11]; rfl
      · rw [decide_eq_false h11]; rfl
    · rw [if_neg h8, if_neg h8]
      simp only [pyGE]
      by_cases h9 : current_price ≤ sp
      · rw [decide_eq_true h9]; rfl
      rw [decide_eq_false h9]
      dsimp only
      by_cases h10 : pyUpper order_type = "STOP_LIMIT"
      case neg => rw [if_neg h10, if_neg h10]; rfl
      rw [if_pos h10, if_pos h10]
      obtain ⟨p, rfl⟩ : ∃ p, price = some p := by
        cases price
        · exact absurd ⟨by rw [h10]; decide, rfl⟩ h4
        · exact ⟨_, rfl⟩
      simp only [pyLT]
      by_cases h11 : p < sp
      · rw [decide_eq_true h11]; rfl
      · rw [decide_eq_false h11]; rfl

/-- C9: the accept/reject verdict of the validator is invariant under
uppercasing the side and order-type arguments (the rejection message may
differ, since it echoes the original type string). -/
theorem verdict_case_insensitive (lookup : String → Option ℚ)
    (symbol side order_type : String) (quantity : ℚ)
    (price stop_price : Option ℚ) :
    verdict (validate_order_params lookup symbol side order_type quantity
        price stop_price)
      = verdict (validate_order_params lookup symbol (pyUpper side)
        (pyUpper order_type) quantity price stop_price) := by
  rw [verdict_validate_eq_core, verdict_validate_eq_core, pyUpper_idem,
    pyUpper_idem]
